import Mathlib

/-!
# Verification of `proofing_box.ino`

Shallow embedding of the bread proofing box controller
(`src/proofing_box.ino`). Temperatures (C `float`) are modelled as
rationals, with `Option ℚ` where a reading may be NaN (`none` = NaN).
Display output is modelled as a list of emitted tokens; GPIO relay state
as a `Bool` field; `millis()` values as natural numbers with 32-bit
unsigned wraparound where the source subtracts them.
-/

namespace ProofingBox

/-! ## Constants (from the top of the sketch) -/

/-- `const int refresh_freq = 100;` — time to wait between display refreshes (ms). -/
def refresh_freq : Nat := 100

/-- `const float enco_sensitivity = 0.25;` — degrees C per encoder count. -/
def enco_sensitivity : ℚ := 25 / 100

/-- `const float cushion_temp = 2.0;` — total hysteresis dead-band width. -/
def cushion_temp : ℚ := 2

/-- `const int disp_brightness = 255;` -/
def disp_brightness : Nat := 255

/-! ## Display transport tokens

Each write to the `SoftwareSerial` display is recorded as a token:
`disp.write(0x76)` etc. become command tokens, `disp.print(s)` a
`print` token. -/

inductive DispToken where
  | clear : DispToken
  | brightness : Nat → DispToken
  | decimals : Nat → DispToken
  | print : String → DispToken
deriving DecidableEq, Repr

/-! ## C formatting primitives -/

/-- C cast `(int) f` for a (non-NaN) float value: truncation toward zero. -/
def cIntCast (q : ℚ) : Int := if 0 ≤ q then ⌊q⌋ else ⌈q⌉

/-- `(int)` cast applied to the stored `current_temp` float. The `none`
(NaN) case is implementation-defined in C and unreachable in every claim
below; it is modelled as 0. -/
def cIntCastOpt : Option ℚ → Int
  | none => 0
  | some q => cIntCast q

/-- Right-justify a string in a field of width `w` by left-padding with
spaces (the behaviour of `%4d` / `%2d` minimum field widths). -/
def padLeft (w : Nat) (s : String) : String :=
  if s.length < w then String.mk (List.replicate (w - s.length) ' ') ++ s else s

/-- `sprintf("%<w>d", i)`: decimal representation of `i`, right-justified
in a `w`-character minimum field. -/
def fmtInt (w : Nat) (i : Int) : String := padLeft w (toString i)

/-! ## Program state

The global variables of the sketch, plus the relay output pin (read back
by `relayState()` and written by `switchRelay()`). -/

structure SysState where
  /-- `volatile int enco_prev` — previous 2-bit encoder pin pair. -/
  enco_prev : Nat
  /-- `volatile long enco_value` — the current encoder counter. -/
  enco_value : Int
  /-- `volatile float target_temp` — the target temperature. -/
  target_temp : ℚ
  /-- `boolean setup_mode` — `true` = Setup mode, `false` = Run mode. -/
  setup_mode : Bool
  /-- `unsigned long time_now` — timestamp of the last display refresh. -/
  time_now : Nat
  /-- `float current_temp` — last sensor reading (`none` = NaN). -/
  current_temp : Option ℚ
  /-- the relay output pin: `true` = HIGH = energized. -/
  relay : Bool
deriving DecidableEq, Repr

/-! ## Display helpers (translated from the sketch) -/

/-- `clearDisplay()` -/
def clearDisplay : List DispToken := [.clear]

/-- `setBrightness(value)` -/
def setBrightness (value : Nat) : List DispToken := [.brightness value]

/-- `setDecimals(decimals)` -/
def setDecimals (decimals : Nat) : List DispToken := [.decimals decimals]

/-- `writeCurrentTemperature()`: sets the decimal mask `0b000010`, then
prints `sprintf(buff, "%4d", (int)(current_temp * 100))`. -/
def writeCurrentTemperature (current_temp : Option ℚ) : List DispToken :=
  setDecimals 0b000010 ++
    [.print (fmtInt 4 (cIntCastOpt (Option.map (fun t => t * 100) current_temp)))]

/-- `writeTargetTemperature()`: sets the decimal mask `0b010000`, then
prints `sprintf(buff, "T %2d", (int) target_temp)`. -/
def writeTargetTemperature (target_temp : ℚ) : List DispToken :=
  setDecimals 0b010000 ++ [.print ("T " ++ fmtInt 2 (cIntCast target_temp))]

/-- `updateDisplay()`: target temperature in Setup mode, current
temperature in Run mode. -/
def updateDisplay (s : SysState) : List DispToken :=
  if s.setup_mode then writeTargetTemperature s.target_temp
  else writeCurrentTemperature s.current_temp

/-! ## Quadrature decoder interrupt handler -/

/-- `updateEncoder()`: the interrupt handler. Inputs `pin1`, `pin2` are the
levels read from the two encoder pins (`digitalRead`). Returns the new
global state. In Run mode it returns before reading any pin or writing
any state. -/
def updateEncoder (s : SysState) (pin1 pin2 : Bool) : SysState :=
  if s.setup_mode = false then s
  else
    let msb : Nat := if pin1 then 1 else 0
    let lsb : Nat := if pin2 then 1 else 0
    let enco : Nat := msb <<< 1 ||| lsb
    let sum : Nat := s.enco_prev <<< 2 ||| enco
    let v : Int :=
      if sum = 0b1101 ∨ sum = 0b0100 ∨ sum = 0b0010 ∨ sum = 0b1011 then
        s.enco_value + 1
      else if sum = 0b1110 ∨ sum = 0b0111 ∨ sum = 0b0001 ∨ sum = 0b1000 then
        s.enco_value - 1
      else s.enco_value
    { s with enco_prev := enco, enco_value := v,
             target_temp := (v : ℚ) * enco_sensitivity }

/-! ## Relay helpers -/

/-- `relayState()`: read back the relay pin. -/
def relayState (s : SysState) : Bool := s.relay

/-- `switchRelay(on)`: drive the relay pin. -/
def switchRelay (s : SysState) (b : Bool) : SysState := { s with relay := b }

/-! ## Startup -/

/-- The initial values of the globals as declared at the top of the
sketch, before `setup()` runs. `relayPin0` is whatever level the relay
output pin happens to hold before `setup()` configures and forces it. -/
def initGlobals (relayPin0 : Bool) : SysState :=
  { enco_prev := 0, enco_value := 100, target_temp := 0,
    setup_mode := false, time_now := 0, current_temp := some 0,
    relay := relayPin0 }

/-- `setup()` run from an arbitrary pre-boot relay pin level:
`switchRelay(false)`, then `target_temp = enco_value * enco_sensitivity`.
Nothing else feeds into the state: no state persists across restarts. -/
def setupStateFrom (relayPin0 : Bool) : SysState :=
  let s := switchRelay (initGlobals relayPin0) false
  { s with target_temp := (s.enco_value : ℚ) * enco_sensitivity }

/-- The state after `setup()`, before the first `loop()` iteration. -/
def setupState : SysState := setupStateFrom false

/-- The display tokens emitted by `setup()`: clear, brightness, then
`writeTargetTemperature()`. -/
def setupTokens : List DispToken :=
  clearDisplay ++ setBrightness disp_brightness ++
    writeTargetTemperature setupState.target_temp

/-! ## Main loop -/

/-- Result of one `loop()` iteration: the new state, the display tokens
emitted during the iteration (in order), and the total blocking delay
(ms) incurred by `delay()` calls. -/
structure LoopResult where
  state : SysState
  tokens : List DispToken
  delayMs : Nat
deriving DecidableEq, Repr

/-- 32-bit unsigned subtraction `a - b` as computed on `unsigned long`
operands (`millis() - time_now`). -/
def u32sub (a b : Nat) : Nat := (a % 2 ^ 32 + 2 ^ 32 - b % 2 ^ 32) % 2 ^ 32

/-- The tail of `loop()`: `if (millis() - time_now > refresh_freq) {
time_now = millis(); updateDisplay(); }`. `ms` is the value returned by
`millis()` at this point. -/
def refreshPhase (s : SysState) (toks : List DispToken) (d : Nat) (ms : Nat) :
    LoopResult :=
  if u32sub ms s.time_now > refresh_freq then
    ⟨{ s with time_now := ms % 2 ^ 32 }, toks ++ updateDisplay s, d⟩
  else ⟨s, toks, d⟩

/-- One iteration of `loop()`. Inputs: `swPin` is the level read from the
encoder switch pin (active-low: `false` = pressed), `sensor` is the value
returned by `dht.readTemperature(false)` (`none` = NaN), `ms` the value
`millis()` returns at the refresh check. -/
def loopIter (s : SysState) (swPin : Bool) (sensor : Option ℚ) (ms : Nat) :
    LoopResult :=
  -- button phase: `if (!digitalRead(pin_enco_sw)) { ... }`
  let pressed : Bool := !swPin
  let s1 : SysState :=
    if pressed then { s with setup_mode := !s.setup_mode } else s
  let toks1 : List DispToken := if pressed then updateDisplay s1 else []
  let d1 : Nat := if pressed then 1000 else 0
  if s1.setup_mode then
    refreshPhase s1 toks1 d1 ms
  else
    -- `current_temp = dht.readTemperature(false);`
    let s2 : SysState := { s1 with current_temp := sensor }
    match sensor with
    | none =>
        -- `disp.print("Err "); return;`
        ⟨s2, toks1 ++ [.print "Err "], d1⟩
    | some t =>
        let cushion : ℚ := cushion_temp / 2
        let cushioned_target : ℚ :=
          if relayState s2 then s2.target_temp + cushion
          else s2.target_temp - cushion
        let s3 : SysState := switchRelay s2 (decide (t ≤ cushioned_target))
        refreshPhase s3 toks1 d1 ms

/-! ## Timed traces of the main loop

Each iteration starts by sampling the button; all work other than the
explicit `delay(1000)` takes negligible time, so an iteration that starts
at time `t` ends (and the next button sample occurs) at
`t + delay incurred`, and `millis()` at the refresh check of that
iteration returns `t + delay incurred`. -/

/-- Run a sequence of `loop()` iterations. `t` is the absolute time (ms)
at which the next iteration samples the button; each list entry supplies
that iteration's switch pin level and sensor reading. Returns the final
state, the time of the next button sample, and all display tokens
emitted, in order. -/
def loopRun : SysState → Nat → List (Bool × Option ℚ) → SysState × Nat × List DispToken
  | s, t, [] => (s, t, [])
  | s, t, (sw, sen) :: rest =>
      let d : Nat := if sw then 0 else 1000
      let r := loopIter s sw sen (t + d)
      let k := loopRun r.state (t + d) rest
      (k.1, k.2.1, r.tokens ++ k.2.2)

/-! ## Helper lemmas -/

theorem refreshPhase_state_relay (s : SysState) (toks : List DispToken) (d ms : Nat) :
    (refreshPhase s toks d ms).state.relay = s.relay := by
  unfold refreshPhase; split <;> rfl

theorem refreshPhase_state_setup_mode (s : SysState) (toks : List DispToken) (d ms : Nat) :
    (refreshPhase s toks d ms).state.setup_mode = s.setup_mode := by
  unfold refreshPhase; split <;> rfl

theorem refreshPhase_state_enco_value (s : SysState) (toks : List DispToken) (d ms : Nat) :
    (refreshPhase s toks d ms).state.enco_value = s.enco_value := by
  unfold refreshPhase; split <;> rfl

theorem refreshPhase_state_target_temp (s : SysState) (toks : List DispToken) (d ms : Nat) :
    (refreshPhase s toks d ms).state.target_temp = s.target_temp := by
  unfold refreshPhase; split <;> rfl

theorem refreshPhase_delayMs (s : SysState) (toks : List DispToken) (d ms : Nat) :
    (refreshPhase s toks d ms).delayMs = d := by
  unfold refreshPhase; split <;> rfl

theorem refreshPhase_tokens_extend (s : SysState) (toks : List DispToken) (d ms : Nat) :
    ∃ rest, (refreshPhase s toks d ms).tokens = toks ++ rest := by
  unfold refreshPhase; split
  · exact ⟨updateDisplay s, rfl⟩
  · exact ⟨[], by simp⟩

/-- A Run-mode iteration with a NaN reading in full: the state keeps
everything except `current_temp` (which stores the NaN), the only output
is the error token, and no delay is incurred. -/
theorem loopIter_nan_run (s : SysState) (ms : Nat) (hmode : s.setup_mode = false) :
    loopIter s true none ms =
      ⟨{ s with current_temp := none }, [.print "Err "], 0⟩ := by
  unfold loopIter
  simp [hmode]

/-- `loop()` never writes the encoder counter. -/
theorem loopIter_enco_value (s : SysState) (sw : Bool) (sen : Option ℚ) (ms : Nat) :
    (loopIter s sw sen ms).state.enco_value = s.enco_value := by
  unfold loopIter
  cases hsm : s.setup_mode <;> cases sw <;> cases sen <;>
    simp [hsm, refreshPhase_state_enco_value, switchRelay, relayState]

/-- `loop()` never writes the target temperature. -/
theorem loopIter_target_temp (s : SysState) (sw : Bool) (sen : Option ℚ) (ms : Nat) :
    (loopIter s sw sen ms).state.target_temp = s.target_temp := by
  unfold loopIter
  cases hsm : s.setup_mode <;> cases sw <;> cases sen <;>
    simp [hsm, refreshPhase_state_target_temp, switchRelay, relayState]

/-! ## Claims -/

/-- C5: a quadrature-decoder invocation while in Run mode leaves the
entire state — counter, stored previous pin pair, target temperature and
all — exactly as it was: the edge is ignored. -/
theorem updateEncoder_run_mode_noop (s : SysState) (p1 p2 : Bool)
    (hmode : s.setup_mode = false) : updateEncoder s p1 p2 = s := by
  unfold updateEncoder
  simp [hmode]

theorem updateEncoder_run_mode_noop_witness :
    updateEncoder setupState true false = setupState :=
  updateEncoder_run_mode_noop setupState true false rfl

/-- C3: immediately after any decoder invocation that updates the counter
(every Setup-mode invocation recomputes it), `target_temp = enco_value *
0.25`; and the counter/target are only updated in Setup mode: a Run-mode
decoder invocation leaves both unchanged, and no main-loop iteration ever
writes either. -/
theorem target_temp_deriv_invariant (s : SysState) (p1 p2 sw : Bool)
    (sen : Option ℚ) (ms : Nat) :
    (s.setup_mode = true →
      (updateEncoder s p1 p2).target_temp =
        ((updateEncoder s p1 p2).enco_value : ℚ) * (25 / 100))
    ∧ (s.setup_mode = false →
        (updateEncoder s p1 p2).enco_value = s.enco_value ∧
        (updateEncoder s p1 p2).target_temp = s.target_temp)
    ∧ (loopIter s sw sen ms).state.enco_value = s.enco_value
    ∧ (loopIter s sw sen ms).state.target_temp = s.target_temp := by
  refine ⟨fun hmode => ?_, fun hmode => ?_,
    loopIter_enco_value s sw sen ms, loopIter_target_temp s sw sen ms⟩
  · unfold updateEncoder
    simp [hmode, enco_sensitivity]
  · unfold updateEncoder
    simp [hmode]

theorem target_temp_deriv_invariant_witness :
    (updateEncoder { setupState with setup_mode := true } true true).target_temp =
      ((updateEncoder { setupState with setup_mode := true } true true).enco_value : ℚ) *
        (25 / 100) :=
  (target_temp_deriv_invariant { setupState with setup_mode := true }
    true true true none 0).1 rfl

/-- C9: after `setup()` and before the first `loop()` iteration — from
any pre-boot relay pin level — the mode is Run (`setup_mode = false`),
the relay is forced de-energized, and the counter holds its fixed default
100, giving target 25.0; `setupStateFrom` depends on nothing else, so no
state persists across restarts. -/
theorem startup_state (b : Bool) :
    (setupStateFrom b).setup_mode = false ∧
    (setupStateFrom b).relay = false ∧
    (setupStateFrom b).enco_value = 100 ∧
    (setupStateFrom b).target_temp = 25 := by
  refine ⟨rfl, rfl, rfl, ?_⟩
  show ((100 : Int) : ℚ) * enco_sensitivity = 25
  norm_num [enco_sensitivity]

/-- C8: the derivation `target = counter * 0.25` is exact at the
distinguished points: decrementing the counter to 0 through the decoder
yields target exactly 0, and the startup default counter 100 yields
target exactly 25.0. -/
theorem counter_scaling_exact :
    (updateEncoder { setupState with setup_mode := true, enco_value := 1 }
        false true).enco_value = 0
    ∧ (updateEncoder { setupState with setup_mode := true, enco_value := 1 }
        false true).target_temp = 0
    ∧ setupState.enco_value = 100
    ∧ setupState.target_temp = 25
    ∧ (0 : ℚ) * enco_sensitivity = 0
    ∧ (100 : ℚ) * enco_sensitivity = 25 := by
  refine ⟨rfl, ?_, rfl, ?_, ?_, ?_⟩
  · show ((0 : Int) : ℚ) * enco_sensitivity = 0
    norm_num [enco_sensitivity]
  · show ((100 : Int) : ℚ) * enco_sensitivity = 25
    norm_num [enco_sensitivity]
  · norm_num [enco_sensitivity]
  · norm_num [enco_sensitivity]

/-- C7: in Run mode a current temperature of 23.456 renders as the
decimal-mask command followed by the truncation of 23.456 × 100 = 2345,
right-justified in a 4-character field; in Setup mode a target of 24.0
renders as the literal prefix "T " followed by the truncated target
right-justified in a 2-character field, i.e. "T 24". -/
theorem display_formatting :
    writeCurrentTemperature (some (23456 / 1000)) =
      setDecimals 0b000010 ++ [.print (fmtInt 4 2345)]
    ∧ fmtInt 4 2345 = "2345"
    ∧ writeTargetTemperature 24 =
        setDecimals 0b010000 ++ [.print ("T " ++ fmtInt 2 24)]
    ∧ "T " ++ fmtInt 2 24 = "T 24" := by
  refine ⟨?_, by decide, ?_, by decide⟩
  · unfold writeCurrentTemperature
    have h : cIntCastOpt (Option.map (fun t => t * 100) (some (23456 / 1000 : ℚ))) = 2345 := by
      show cIntCast ((23456 / 1000 : ℚ) * 100) = 2345
      rw [cIntCast]
      norm_num
    rw [h]
  · unfold writeTargetTemperature
    have h : cIntCast (24 : ℚ) = 24 := by
      rw [cIntCast]
      norm_num
    rw [h]

/-- C2: for every Setup-mode decoder invocation, with the 4-bit code
formed by concatenating the stored previous pin pair (high bits) with the
current pin pair (low bits), the counter increments by exactly 1 on codes
{1101, 0100, 0010, 1011}, decrements by exactly 1 on codes
{1110, 0111, 0001, 1000}, and is unchanged on every other code; the
current pair is then stored as previous. -/
theorem quadrature_decode (s : SysState) (p1 p2 : Bool)
    (hmode : s.setup_mode = true) (hprev : s.enco_prev < 4) :
    ((updateEncoder s p1 p2).enco_value =
      if 4 * s.enco_prev + (2 * (if p1 then 1 else 0) + (if p2 then 1 else 0)) ∈
          ([0b1101, 0b0100, 0b0010, 0b1011] : List Nat) then s.enco_value + 1
      else if 4 * s.enco_prev + (2 * (if p1 then 1 else 0) + (if p2 then 1 else 0)) ∈
          ([0b1110, 0b0111, 0b0001, 0b1000] : List Nat) then s.enco_value - 1
      else s.enco_value)
    ∧ (updateEncoder s p1 p2).enco_prev =
        2 * (if p1 then 1 else 0) + (if p2 then 1 else 0) := by
  have h4 : s.enco_prev = 0 ∨ s.enco_prev = 1 ∨ s.enco_prev = 2 ∨ s.enco_prev = 3 := by
    omega
  unfold updateEncoder
  rcases h4 with h | h | h | h <;> cases p1 <;> cases p2 <;>
    simp [hmode, h]

theorem quadrature_decode_witness :
    ((updateEncoder { setupState with setup_mode := true, enco_prev := 3 }
        false true).enco_value = 101)
    ∧ (updateEncoder { setupState with setup_mode := true, enco_prev := 3 }
        false true).enco_prev = 1 := by
  have h := quadrature_decode { setupState with setup_mode := true, enco_prev := 3 }
    false true rfl (by decide)
  refine ⟨?_, ?_⟩
  · rw [h.1]
    decide
  · rw [h.2]
    decide

/-- C1: in a Run-mode iteration with a valid reading `t`: if the relay is
energized the new command is energized iff `t ≤ target + cushion/2`; if
de-energized, energized iff `t ≤ target − cushion/2`; and with target
25.0 and cushion 2.0, any `t` strictly between 24.0 and 26.0 leaves the
relay state unchanged. -/
theorem hysteresis_decision (s : SysState) (t : ℚ) (ms : Nat)
    (hmode : s.setup_mode = false) :
    (s.relay = true →
      ((loopIter s true (some t) ms).state.relay = true ↔
        t ≤ s.target_temp + cushion_temp / 2))
    ∧ (s.relay = false →
        ((loopIter s true (some t) ms).state.relay = true ↔
          t ≤ s.target_temp - cushion_temp / 2))
    ∧ (s.target_temp = 25 → 24 < t → t < 26 →
        (loopIter s true (some t) ms).state.relay = s.relay) := by
  have hrel : (loopIter s true (some t) ms).state.relay =
      decide (t ≤ if s.relay then s.target_temp + cushion_temp / 2
                  else s.target_temp - cushion_temp / 2) := by
    unfold loopIter
    simp [hmode, refreshPhase_state_relay, switchRelay, relayState]
  refine ⟨fun hr => ?_, fun hr => ?_, fun htgt hlo hhi => ?_⟩
  · rw [hrel, hr]
    simp
  · rw [hrel, hr]
    simp
  · rw [hrel, htgt]
    cases hr : s.relay <;> norm_num [cushion_temp] <;> linarith

theorem hysteresis_decision_witness :
    (loopIter { setupState with relay := true } true (some 25) 0).state.relay = true := by
  have h := hysteresis_decision { setupState with relay := true } 25 0 rfl
  have h3 := h.2.2 (by
    show ((100 : Int) : ℚ) * enco_sensitivity = 25
    norm_num [enco_sensitivity]) (by norm_num) (by norm_num)
  exact h3

/-- C4: a Run-mode iteration with a NaN reading leaves the relay at its
pre-read value, emits the error display token, and returns early: the
whole iteration changes nothing but the stored reading, and in particular
the periodic display-refresh check is skipped (`time_now` untouched, no
refresh tokens) no matter how much time has elapsed. -/
theorem nan_reading_early_return (s : SysState) (ms : Nat)
    (hmode : s.setup_mode = false) :
    (loopIter s true none ms).state = { s with current_temp := none }
    ∧ (loopIter s true none ms).state.relay = s.relay
    ∧ (loopIter s true none ms).tokens = [.print "Err "]
    ∧ (loopIter s true none ms).state.time_now = s.time_now := by
  rw [loopIter_nan_run s ms hmode]
  exact ⟨rfl, rfl, rfl, rfl⟩

theorem nan_reading_early_return_witness :
    (loopIter setupState true none 5000).tokens = [.print "Err "]
    ∧ (loopIter setupState true none 5000).state.time_now = setupState.time_now := by
  have h := nan_reading_early_return setupState 5000 rfl
  exact ⟨h.2.2.1, h.2.2.2⟩

/-- C6: in any iteration whose button sample reads pressed (pin low), the
mode flips exactly once, the display is refreshed immediately after the
flip (the refresh tokens for the new mode lead the iteration's output),
the blocking guard delay is exactly 1000 ms, and the next button sample
therefore occurs only at `t + 1000`: presses within that second are never
sampled, so they cause no additional toggle. -/
theorem button_press_mode_toggle (s : SysState) (sen : Option ℚ) (t : Nat) :
    ((loopIter s false sen t).state.setup_mode = !s.setup_mode)
    ∧ (∃ rest, (loopIter s false sen t).tokens =
        updateDisplay { s with setup_mode := !s.setup_mode } ++ rest)
    ∧ ((loopIter s false sen t).delayMs = 1000)
    ∧ ((loopRun s t [(false, sen)]).2.1 = t + 1000) := by
  refine ⟨?_, ?_, ?_, by simp [loopRun]⟩
  · unfold loopIter
    cases hsm : s.setup_mode <;> cases sen <;>
      simp [hsm, refreshPhase_state_setup_mode, switchRelay, relayState]
  · unfold loopIter
    cases hsm : s.setup_mode <;> cases sen <;>
      simp [hsm, refreshPhase_tokens_extend, switchRelay, relayState]
  · unfold loopIter
    cases hsm : s.setup_mode <;> cases sen <;>
      simp [hsm, refreshPhase_delayMs, switchRelay, relayState]

/-- C10: while in Run mode with a NaN sensor reading, "Err " is written
to the display transport on every single loop iteration, unconditionally:
across any number of consecutive NaN iterations, whatever the timing, the
output is one error token per iteration — the error path is not gated by
the 100 ms display-refresh interval. -/
theorem nan_error_every_iteration (s : SysState) (t n : Nat)
    (hmode : s.setup_mode = false) :
    (loopRun s t (List.replicate n (true, none))).2.2 =
      List.replicate n (DispToken.print "Err ") := by
  induction n generalizing s t with
  | zero => rfl
  | succ n ih =>
      rw [List.replicate_succ, List.replicate_succ]
      show (loopIter s true none (t + 0)).tokens ++
          (loopRun (loopIter s true none (t + 0)).state (t + 0)
            (List.replicate n (true, none))).2.2 =
        DispToken.print "Err " :: List.replicate n (DispToken.print "Err ")
      rw [loopIter_nan_run s (t + 0) hmode]
      dsimp only
      rw [ih { s with current_temp := none } (t + 0) hmode]
      rfl

theorem nan_error_every_iteration_witness :
    (loopRun setupState 0 (List.replicate 3 (true, none))).2.2 =
      List.replicate 3 (DispToken.print "Err ") :=
  nan_error_every_iteration setupState 0 3 rfl

end ProofingBox
